import Mathlib

/-!
Verification of the location-computation engine of `locate.py`
(class `DeviceLocationTracker`).

Shallow embedding conventions:
* machine floats become exact rationals (`ℚ`); Python decimal literals such
  as `0.3048` are the corresponding exact rationals;
* timestamps (Python `datetime` / isoformat strings) become rational seconds,
  and `(now - t).total_seconds()` becomes `now - t`;
* Python `dict`s become insertion-ordered association lists
  (`List (String × _)`) with `alist_get` / `alist_set` mirroring
  `d[k]` / `d.get(k, default)` / `d[k] = v` (update keeps position, a new
  key is appended — CPython dict semantics);
* the side effects of `update_json_file()` (persisting the full
  `device_locations` map) and of the room-change `print` (the change
  notification) are reified as an explicit `Effect` list returned next to
  the new tracker state;
* an exception raised inside `on_message`'s `try` block is caught by its
  `except` handler, so a raising path returns the state as mutated so far
  and no effects.
-/

/-- A 3-D position (the Python `[x, y, z]` lists of floats). -/
structure Vec3 where
  x : ℚ
  y : ℚ
  z : ℚ
deriving DecidableEq, Repr

/-- Room bounds `[x_min, x_max, y_min, y_max, z_min, z_max]` (meters). -/
structure Bounds where
  x_min : ℚ
  x_max : ℚ
  y_min : ℚ
  y_max : ℚ
  z_min : ℚ
  z_max : ℚ
deriving DecidableEq, Repr

/-- One stored reading: `{"distance": ..., "timestamp": ...}`. -/
structure Reading where
  distance : ℚ
  timestamp : ℚ
deriving DecidableEq, Repr

/-- One entry of `self.device_locations`. The initial states written by
`__init__` have no `friendly_name` key, so that field is an `Option`;
a state written by `update_device_location` always carries `some` name. -/
structure LocationState where
  room : String
  position : Vec3
  timestamp : ℚ
  friendly_name : Option String
deriving DecidableEq, Repr

/-- Reified side effects of the ingestion path: `update_json_file()`
writes the full `device_locations` collection, and the room-change
`print` emits `(display name, new room)`. -/
inductive Effect where
  | persist (locations : List (String × LocationState))
  | notify (display_name : String) (room : String)
deriving DecidableEq, Repr

/-- The mutable state of `DeviceLocationTracker`:
`self.device_readings` (device → anchor → latest reading) and
`self.device_locations` (device → location state). -/
structure Tracker where
  device_readings : List (String × List (String × Reading))
  device_locations : List (String × LocationState)
deriving DecidableEq, Repr

/-- A successfully parsed JSON payload: an object whose optional
`"distance"` field, when present, is a number. `payload.get("distance", 0)`
becomes `distance.getD 0`. -/
structure Payload where
  distance : Option ℚ
deriving DecidableEq, Repr

/-- The immutable configuration of the tracker: `self.esp32_positions`,
`self.rooms` and `self.device_names`. -/
structure Config where
  esp32_positions : List (String × Vec3)
  rooms : List (String × Bounds)
  device_names : List (String × String)
deriving DecidableEq, Repr

/-- Dictionary lookup `d.get(k)` on an insertion-ordered association list. -/
def alist_get {α : Type} (k : String) : List (String × α) → Option α
  | [] => none
  | (k₀, v₀) :: rest => if k₀ = k then some v₀ else alist_get k rest

/-- Dictionary assignment `d[k] = v`: updating an existing key keeps its
position, a fresh key is appended (CPython insertion-order semantics). -/
def alist_set {α : Type} (k : String) (v : α) : List (String × α) → List (String × α)
  | [] => [(k, v)]
  | (k₀, v₀) :: rest => if k₀ = k then (k, v) :: rest else (k₀, v₀) :: alist_set k v rest

/-- `self.FEET_TO_METERS = 0.3048`. -/
def FEET_TO_METERS : ℚ := 0.3048

/-- `self.home_width = 27 * self.FEET_TO_METERS` (East-West, X-axis). -/
def home_width : ℚ := 27 * FEET_TO_METERS

/-- `self.home_length = 42 * self.FEET_TO_METERS` (North-South, Y-axis). -/
def home_length : ℚ := 42 * FEET_TO_METERS

/-- `self.floor_height = 10 * self.FEET_TO_METERS` (Z-axis). -/
def floor_height : ℚ := 10 * FEET_TO_METERS

/-- Per-anchor weight (line 203 of `locate.py`):
`weight = 1 / (distance ** 2) if distance > 0.1 else 100`. -/
def weight (distance : ℚ) : ℚ :=
  if distance > 0.1 then 1 / distance ^ 2 else 100

/-- The floor-boundary adjustment applied to the z component at the end of
`triangulate_position` (lines 216-221 of `locate.py`). -/
def snap_z (z : ℚ) : ℚ :=
  if z < floor_height * 0.5 then 0.5 * floor_height
  else if z < floor_height * 1.5 then 1.5 * floor_height
  else 2.5 * floor_height

/-- Anchor position lookup `self.esp32_positions[esp32_id]` as used inside
`triangulate_position`; every stored reading's anchor is a key of the
table (checked at ingestion), so the default is never reached there. -/
def posOf (ps : List (String × Vec3)) (esp32_id : String) : Vec3 :=
  (alist_get esp32_id ps).getD ⟨0, 0, 0⟩

/-- One iteration of the accumulation loop of `triangulate_position`:
`position[i] += esp32_pos[i] * weight` for each axis and
`total_weight += weight`. -/
def tri_step (ps : List (String × Vec3)) (acc : Vec3 × ℚ) (r : String × Reading) :
    Vec3 × ℚ :=
  let esp32_pos := posOf ps r.1
  let w := weight r.2.distance
  (⟨acc.1.x + esp32_pos.x * w, acc.1.y + esp32_pos.y * w, acc.1.z + esp32_pos.z * w⟩,
   acc.2 + w)

/-- `triangulate_position` (lines 192-223 of `locate.py`). The source
method also receives `device_id` but never uses it; the anchor-position
table stands in for `self`. -/
def triangulate_position (ps : List (String × Vec3))
    (readings : List (String × Reading)) : Vec3 :=
  let acc := readings.foldl (tri_step ps) (⟨0, 0, 0⟩, 0)
  let total_weight := acc.2
  let position :=
    if total_weight > 0 then
      ⟨acc.1.x / total_weight, acc.1.y / total_weight, acc.1.z / total_weight⟩
    else acc.1
  ⟨position.x, position.y, snap_z position.z⟩

/-- The staleness filter of `update_device_location` (lines 163-166):
keep readings with `(now - reading.timestamp).total_seconds() < 60`. -/
def valid_readings (now : ℚ) (readings : List (String × Reading)) :
    List (String × Reading) :=
  readings.filter (fun r => now - r.2.timestamp < 60)

/-- Inclusive containment on all three axes (lines 228-230):
`bounds[0] <= x <= bounds[1] and bounds[2] <= y <= bounds[3] and
bounds[4] <= z <= bounds[5]`. -/
def contains_pos (bounds : Bounds) (position : Vec3) : Prop :=
  bounds.x_min ≤ position.x ∧ position.x ≤ bounds.x_max ∧
  bounds.y_min ≤ position.y ∧ position.y ≤ bounds.y_max ∧
  bounds.z_min ≤ position.z ∧ position.z ≤ bounds.z_max

instance (bounds : Bounds) (position : Vec3) : Decidable (contains_pos bounds position) :=
  inferInstanceAs (Decidable (_ ∧ _))

/-- `determine_room` (lines 225-233): first room whose bounds contain the
position, in the table's insertion order; `"Outside"` when none does. -/
def determine_room (rooms : List (String × Bounds)) (position : Vec3) : String :=
  match rooms with
  | [] => "Outside"
  | (room_name, bounds) :: rest =>
    if contains_pos bounds position then room_name
    else determine_room rest position

/-- `update_device_location` (lines 153-190). The lookup
`self.device_locations[device_id]` raises `KeyError` when the key is
absent; that exception is swallowed by `on_message`'s handler with no
further state change, which the `none` branch models. The stored state's
`"room"` key always exists, so `.get("room", "Unknown")` reads `cur.room`. -/
def update_device_location (cfg : Config) (device_id : String) (now : ℚ)
    (t : Tracker) : Tracker × List Effect :=
  let readings := (alist_get device_id t.device_readings).getD []
  if readings.length < 3 then (t, [])
  else
    let valid := valid_readings now readings
    if valid.length < 3 then (t, [])
    else
      let position := triangulate_position cfg.esp32_positions valid
      let room := determine_room cfg.rooms position
      match alist_get device_id t.device_locations with
      | none => (t, [])
      | some cur =>
        if room ≠ cur.room then
          let new_state : LocationState :=
            { room := room, position := position, timestamp := now,
              friendly_name :=
                some ((alist_get device_id cfg.device_names).getD "Unknown Device") }
          let new_locations := alist_set device_id new_state t.device_locations
          ({ t with device_locations := new_locations },
           [Effect.persist new_locations,
            Effect.notify ((alist_get device_id cfg.device_names).getD device_id) room])
        else (t, [])

/-- The concrete `self.esp32_positions` table from `__init__`
(ESP32 positions in meters, origin at the southeast bottom corner).
Expressions are transcribed verbatim, including the source's reuse of the
already-metric `home_length` / `home_width` inside feet conversions. -/
def esp32_positions_table : List (String × Vec3) :=
  [("espresense_readingroom",
     ⟨10 * FEET_TO_METERS, 10 * FEET_TO_METERS, 5 * FEET_TO_METERS⟩),
   ("espresense_studio",
     ⟨(home_length - 5) * FEET_TO_METERS, 6 * FEET_TO_METERS, 3 * FEET_TO_METERS⟩),
   ("espresense_bedroom",
     ⟨(home_length - 10) * FEET_TO_METERS, 5 * FEET_TO_METERS,
      floor_height + 5 * FEET_TO_METERS⟩),
   ("espresense_amma",
     ⟨(home_length - 10) * FEET_TO_METERS, (home_width - 4) * FEET_TO_METERS,
      floor_height + 2 * FEET_TO_METERS⟩),
   ("espresense_kitchen",
     ⟨15 * FEET_TO_METERS, 6 * FEET_TO_METERS, floor_height + 3 * FEET_TO_METERS⟩),
   ("espresense_theatre",
     ⟨(home_length - 7) * FEET_TO_METERS, (home_width - 12) * FEET_TO_METERS,
      2 * floor_height + 2 * FEET_TO_METERS⟩),
   ("espresense_thetophat",
     ⟨(home_length - 21) * FEET_TO_METERS, (home_width - 4) * FEET_TO_METERS,
      2 * floor_height + 10 * FEET_TO_METERS⟩)]

/-- The concrete room-boundary table built by `define_room_boundaries`,
in its insertion order. -/
def rooms_table : List (String × Bounds) :=
  [("The Reading Space",
     ⟨0, home_width / 2, 0, home_length / 2, 0, floor_height⟩),
   ("Studio",
     ⟨0, home_width / 2, home_length / 2, home_length, 0, floor_height⟩),
   ("Ground Floor Hall",
     ⟨home_width / 2, home_width, 0, home_length, 0, floor_height⟩),
   ("Bedroom",
     ⟨0, 10 * FEET_TO_METERS, 0, 15 * FEET_TO_METERS,
      floor_height, 2 * floor_height⟩),
   ("Amma Bedroom",
     ⟨0, 10 * FEET_TO_METERS, home_width - 15 * FEET_TO_METERS, home_width,
      floor_height, 2 * floor_height⟩),
   ("Kitchen",
     ⟨home_length - 15 * FEET_TO_METERS, home_length, 0, 10 * FEET_TO_METERS,
      floor_height, 2 * floor_height⟩),
   ("Hall",
     ⟨10 * FEET_TO_METERS, home_length - 15 * FEET_TO_METERS, 0, home_width,
      floor_height, 2 * floor_height⟩),
   ("Theatre",
     ⟨home_length - 20 * FEET_TO_METERS, home_length, 0, 10 * FEET_TO_METERS,
      2 * floor_height, 3 * floor_height⟩),
   ("Den",
     ⟨home_length - 20 * FEET_TO_METERS, home_length, 10 * FEET_TO_METERS,
      20 * FEET_TO_METERS, 2 * floor_height, 3 * floor_height⟩),
   ("The Open Top",
     ⟨0, home_length - 20 * FEET_TO_METERS, 0, home_width,
      2 * floor_height, 3 * floor_height⟩)]

/-- The concrete `self.device_names` table from `__init__`. -/
def device_names_table : List (String × String) :=
  [("irk:1f675efed04b065afa81b46b500cf042", "Su Watch"),
   ("irk:7aa501ab6bd5c2382aecff28ddfa1eee", "Sn iPhone"),
   ("irk:37112d6ca4debb67092ef94601af9318", "Su iPhone"),
   ("irk:48b4be2a5da9c3667670417d24d0b32f", "Sn Watch")]

/-- The full concrete configuration of `DeviceLocationTracker`. -/
def tracker_config : Config :=
  { esp32_positions := esp32_positions_table,
    rooms := rooms_table,
    device_names := device_names_table }

/-- Python `str.split("/")` over the string's character list: splits at
every slash and keeps empty segments (`"a//b" → ["a", "", "b"]`,
`"" → [""]`), matching `msg.topic.split('/')`. -/
def split_slash_aux : List Char → List Char → List String
  | [], acc => [String.mk acc.reverse]
  | c :: rest, acc =>
    if c = '/' then String.mk acc.reverse :: split_slash_aux rest []
    else split_slash_aux rest (c :: acc)

/-- See `split_slash_aux`. -/
def split_slash (s : String) : List String := split_slash_aux s.data []

/-- `on_message` (lines 125-151). `payload = none` models an unparsable
body (`json.loads` raises, caught by the handler); a too-short topic makes
`topic_parts[2]` or `topic_parts[3]` raise `IndexError`, likewise caught;
an untracked device returns early; an unknown anchor name skips the store;
a missing `device_readings` key raises `KeyError` before any mutation. -/
def on_message (cfg : Config) (now : ℚ) (topic : String)
    (payload : Option Payload) (t : Tracker) : Tracker × List Effect :=
  match payload with
  | none => (t, [])
  | some p =>
    let topic_parts := split_slash topic
    match topic_parts.get? 2, topic_parts.get? 3 with
    | some device_id, some esp32_short =>
      if (alist_get device_id cfg.device_names).isNone then (t, [])
      else
        let esp32_name := "espresense_" ++ esp32_short
        if (alist_get esp32_name cfg.esp32_positions).isSome then
          match alist_get device_id t.device_readings with
          | none => (t, [])
          | some inner =>
            let reading : Reading := { distance := p.distance.getD 0, timestamp := now }
            let new_readings :=
              alist_set device_id (alist_set esp32_name reading inner) t.device_readings
            let t₁ : Tracker := { t with device_readings := new_readings }
            update_device_location cfg device_id now t₁
        else (t, [])
    | _, _ => (t, [])

/-- Total weight `Σw_i` accumulated by `triangulate_position` over a
reading set. -/
def total_weight_of (rs : List (String × Reading)) : ℚ :=
  (rs.map (fun r => weight r.2.distance)).sum

/-- Weighted per-axis sum `Σ(anchorPosition_i * w_i)` of a reading set,
for the axis selected by `f`. -/
def weighted_sum (f : Vec3 → ℚ) (ps : List (String × Vec3))
    (rs : List (String × Reading)) : ℚ :=
  (rs.map (fun r => f (posOf ps r.1) * weight r.2.distance)).sum

lemma weight_pos (d : ℚ) : 0 < weight d := by
  unfold weight
  split
  · rename_i h
    have hd : (0 : ℚ) < d := lt_trans (by norm_num) h
    have h2 : (0 : ℚ) < d ^ 2 := by positivity
    exact div_pos one_pos h2
  · norm_num

lemma total_weight_pos (rs : List (String × Reading)) (h : rs ≠ []) :
    0 < total_weight_of rs := by
  unfold total_weight_of
  refine List.sum_pos _ ?_ ?_
  · intro x hx
    rcases List.mem_map.mp hx with ⟨r, _, rfl⟩
    exact weight_pos r.2.distance
  · simpa using h

lemma tri_foldl_eq (ps : List (String × Vec3)) (rs : List (String × Reading)) :
    ∀ acc : Vec3 × ℚ,
      rs.foldl (tri_step ps) acc =
        (⟨acc.1.x + weighted_sum Vec3.x ps rs, acc.1.y + weighted_sum Vec3.y ps rs,
          acc.1.z + weighted_sum Vec3.z ps rs⟩, acc.2 + total_weight_of rs) := by
  induction rs with
  | nil => intro acc; simp [weighted_sum, total_weight_of]
  | cons r rest ih =>
    intro acc
    rw [List.foldl_cons, ih]
    simp only [tri_step, weighted_sum, total_weight_of, List.map_cons, List.sum_cons]
    refine Prod.ext ?_ ?_ <;> (simp; try ring_nf; try simp [add_assoc])

/-- C3: the per-anchor weight equals `1 / distance ^ 2` when the distance
exceeds 0.1 meters and equals the fixed constant 100 otherwise (including
distance exactly 0 and negative distances), and on the region
`distance > 0.1` the weight is strictly decreasing in the distance. -/
theorem weight_spec :
    (∀ d : ℚ, 0.1 < d → weight d = 1 / d ^ 2) ∧
    (∀ d : ℚ, d ≤ 0.1 → weight d = 100) ∧
    (∀ d₁ d₂ : ℚ, 0.1 < d₂ → d₂ < d₁ → weight d₁ < weight d₂) := by
  refine ⟨?_, ?_, ?_⟩
  · intro d h
    simp [weight, h]
  · intro d h
    simp [weight, not_lt.mpr h]
  · intro d₁ d₂ h₂ h₁₂
    have h₁ : (0.1 : ℚ) < d₁ := lt_trans h₂ h₁₂
    have h02 : (0 : ℚ) < d₂ := lt_trans (by norm_num) h₂
    rw [weight, weight, if_pos h₁, if_pos h₂]
    have hsq : d₂ ^ 2 < d₁ ^ 2 :=
      pow_lt_pow_left₀ h₁₂ (le_of_lt h02) (by norm_num)
    have h2pos : (0 : ℚ) < d₂ ^ 2 := by positivity
    exact one_div_lt_one_div_of_lt h2pos hsq

/-- Witness for C3 at the concrete distances 2, 0, -5 and 3 > 2 > 0.1. -/
theorem weight_spec_witness :
    weight 2 = 1 / 2 ^ 2 ∧ weight 0 = 100 ∧ weight (-5) = 100 ∧
    weight 3 < weight 2 :=
  ⟨weight_spec.1 2 (by norm_num), weight_spec.2.1 0 (by norm_num),
   weight_spec.2.1 (-5) (by norm_num),
   weight_spec.2.2 3 2 (by norm_num) (by norm_num)⟩

/-- C5: a stored reading is kept by the staleness filter iff its age
`now - timestamp` is strictly below the 60-second TTL, and a reading whose
age is exactly 60 seconds is excluded. -/
theorem valid_readings_ttl :
    (∀ (now : ℚ) (rs : List (String × Reading)) (r : String × Reading),
       r ∈ valid_readings now rs ↔ r ∈ rs ∧ now - r.2.timestamp < 60) ∧
    (∀ (now : ℚ) (rs : List (String × Reading)) (r : String × Reading),
       r ∈ rs → now - r.2.timestamp = 60 → r ∉ valid_readings now rs) := by
  constructor
  · intro now rs r
    simp [valid_readings, List.mem_filter]
  · intro now rs r _ heq hmem
    have h := (List.mem_filter.mp hmem).2
    simp only [decide_eq_true_eq] at h
    rw [heq] at h
    exact lt_irrefl _ h

/-- Witness for C5: a 59-second-old reading is kept, a reading exactly at
the 60-second TTL is excluded. -/
theorem valid_readings_ttl_witness :
    (("a", Reading.mk 1 0) ∈ valid_readings 59 [("a", Reading.mk 1 0)]) ∧
    (("a", Reading.mk 1 0) ∉ valid_readings 60 [("a", Reading.mk 1 0)]) := by
  constructor
  · exact (valid_readings_ttl.1 59 [("a", ⟨1, 0⟩)] ("a", ⟨1, 0⟩)).mpr
      ⟨by decide, by norm_num⟩
  · exact valid_readings_ttl.2 60 [("a", ⟨1, 0⟩)] ("a", ⟨1, 0⟩) (by decide) (by norm_num)

/-- C8 counterexample: re-snapping the already-snapped ground-floor value
`0.5 * floor_height` does not return it — the strict `<` comparison at the
threshold `floor_height * 0.5` sends it up to the first-floor value. -/
theorem snap_z_not_idempotent :
    snap_z (0.5 * floor_height) = 1.5 * floor_height ∧
    snap_z (0.5 * floor_height) ≠ 0.5 * floor_height := by
  constructor
  · norm_num [snap_z, floor_height, FEET_TO_METERS]
  · norm_num [snap_z, floor_height, FEET_TO_METERS]

/-- C8 amended: floor snapping is not idempotent on the lower two snapped
values — `snap_z (0.5 * floor_height) = 1.5 * floor_height` and
`snap_z (1.5 * floor_height) = 2.5 * floor_height`, because the thresholds
compare with strict `<` exactly at those values; only the second-floor
value `2.5 * floor_height` is a fixed point. -/
theorem snap_z_resnap :
    snap_z (0.5 * floor_height) = 1.5 * floor_height ∧
    snap_z (1.5 * floor_height) = 2.5 * floor_height ∧
    snap_z (2.5 * floor_height) = 2.5 * floor_height := by
  refine ⟨?_, ?_, ?_⟩ <;> norm_num [snap_z, floor_height, FEET_TO_METERS]

/-- A small anchor table used to exercise the claims at concrete inputs:
three anchors equidistant (distance 1) from the origin-corner region. -/
def anchors₀ : List (String × Vec3) :=
  [("espresense_a", ⟨0, 0, 0⟩), ("espresense_b", ⟨10, 0, 0⟩), ("espresense_c", ⟨0, 10, 0⟩)]

/-- Three fresh readings with equal reported distance 1 for `anchors₀`. -/
def readings₀ : List (String × Reading) :=
  [("espresense_a", ⟨1, 0⟩), ("espresense_b", ⟨1, 0⟩), ("espresense_c", ⟨1, 0⟩)]

/-- C2: for a set of at least 3 valid readings, the total weight is
positive, the x and y components returned by `triangulate_position` are
exactly the weighted centroid `Σ(anchorPosition_i * w_i) / Σw_i` per axis
(left continuous), and the z component is that centroid's z discretized to
exactly `0.5`, `1.5` or `2.5` times the floor height, choosing `0.5×` when
the raw z is below `0.5×` floor height, `1.5×` when it is below `1.5×`
floor height, and `2.5×` otherwise. -/
theorem triangulate_position_centroid (ps : List (String × Vec3))
    (rs : List (String × Reading)) (h3 : 3 ≤ rs.length) :
    0 < total_weight_of rs ∧
    (triangulate_position ps rs).x = weighted_sum Vec3.x ps rs / total_weight_of rs ∧
    (triangulate_position ps rs).y = weighted_sum Vec3.y ps rs / total_weight_of rs ∧
    (triangulate_position ps rs).z =
      snap_z (weighted_sum Vec3.z ps rs / total_weight_of rs) ∧
    (weighted_sum Vec3.z ps rs / total_weight_of rs < floor_height * 0.5 →
       (triangulate_position ps rs).z = 0.5 * floor_height) ∧
    (¬ weighted_sum Vec3.z ps rs / total_weight_of rs < floor_height * 0.5 →
     weighted_sum Vec3.z ps rs / total_weight_of rs < floor_height * 1.5 →
       (triangulate_position ps rs).z = 1.5 * floor_height) ∧
    (¬ weighted_sum Vec3.z ps rs / total_weight_of rs < floor_height * 1.5 →
       (triangulate_position ps rs).z = 2.5 * floor_height) := by
  have hne : rs ≠ [] := by
    intro h
    rw [h] at h3
    simp at h3
  have hW := total_weight_pos rs hne
  have heval : triangulate_position ps rs =
      ⟨weighted_sum Vec3.x ps rs / total_weight_of rs,
       weighted_sum Vec3.y ps rs / total_weight_of rs,
       snap_z (weighted_sum Vec3.z ps rs / total_weight_of rs)⟩ := by
    simp only [triangulate_position]
    rw [tri_foldl_eq]
    simp only [zero_add]
    rw [if_pos hW]
  have hhalf : floor_height * 0.5 ≤ floor_height * 1.5 := by
    norm_num [floor_height, FEET_TO_METERS]
  refine ⟨hW, by rw [heval], by rw [heval], by rw [heval], ?_, ?_, ?_⟩
  · intro h
    rw [heval]
    simp only [snap_z, if_pos h]
  · intro h1 h2
    rw [heval]
    simp only [snap_z, if_neg h1, if_pos h2]
  · intro h1
    have h0 : ¬ weighted_sum Vec3.z ps rs / total_weight_of rs < floor_height * 0.5 :=
      fun hlt => h1 (lt_of_lt_of_le hlt hhalf)
    rw [heval]
    simp only [snap_z, if_neg h0, if_neg h1]

/-- Witness for C2 on `anchors₀` / `readings₀`: the centroid equations
hold and the raw z-centroid (0) lies below half the floor height, so the
returned z is `0.5 * floor_height`. -/
theorem triangulate_position_centroid_witness :
    0 < total_weight_of readings₀ ∧
    (triangulate_position anchors₀ readings₀).x =
      weighted_sum Vec3.x anchors₀ readings₀ / total_weight_of readings₀ ∧
    (triangulate_position anchors₀ readings₀).y =
      weighted_sum Vec3.y anchors₀ readings₀ / total_weight_of readings₀ ∧
    (triangulate_position anchors₀ readings₀).z = 0.5 * floor_height := by
  have h := triangulate_position_centroid anchors₀ readings₀ (by decide)
  have ha : posOf anchors₀ "espresense_a" = ⟨0, 0, 0⟩ := by decide
  have hb : posOf anchors₀ "espresense_b" = ⟨10, 0, 0⟩ := by decide
  have hc : posOf anchors₀ "espresense_c" = ⟨0, 10, 0⟩ := by decide
  refine ⟨h.1, h.2.1, h.2.2.1, h.2.2.2.2.1 ?_⟩
  simp only [weighted_sum, total_weight_of, readings₀, List.map_cons, List.map_nil,
    List.sum_cons, List.sum_nil, ha, hb, hc]
  norm_num [weight, floor_height, FEET_TO_METERS]

/-- C9 counterexample: for the three anchors of `anchors₀`, equidistant
from a point near the ground with equal reported distances 1, the position
returned by `triangulate_position` has z snapped to `0.5 * floor_height`,
while the arithmetic mean of the three anchor positions has z = 0 — so the
returned position is not the arithmetic mean. -/
theorem triangulate_mean_counterexample :
    triangulate_position anchors₀ readings₀ = ⟨10 / 3, 10 / 3, 0.5 * floor_height⟩ ∧
    (⟨10 / 3, 10 / 3, 0.5 * floor_height⟩ : Vec3) ≠
      ⟨(0 + 10 + 0) / 3, (0 + 0 + 10) / 3, (0 + 0 + 0) / 3⟩ := by
  have ha : posOf anchors₀ "espresense_a" = ⟨0, 0, 0⟩ := by decide
  have hb : posOf anchors₀ "espresense_b" = ⟨10, 0, 0⟩ := by decide
  have hc : posOf anchors₀ "espresense_c" = ⟨0, 10, 0⟩ := by decide
  constructor
  · simp only [triangulate_position, readings₀, List.foldl_cons, List.foldl_nil, tri_step,
      ha, hb, hc]
    norm_num [weight, snap_z, floor_height, FEET_TO_METERS]
  · simp only [ne_eq, Vec3.mk.injEq, not_and]
    intro _ _
    norm_num [floor_height, FEET_TO_METERS]

/-- C9 amended: for 3 anchors with equal reported distances, the weights
are all equal and the x and y components of the returned position equal
the arithmetic mean of the anchor positions; the z component is the
floor-snap of the mean z (so the full position equals the mean only when
that snap is the identity on the mean z). -/
theorem triangulate_equidistant (ps : List (String × Vec3)) (a b c : String)
    (pa pb pc : Vec3) (d t₁ t₂ t₃ : ℚ)
    (ha : alist_get a ps = some pa) (hb : alist_get b ps = some pb)
    (hc : alist_get c ps = some pc) :
    triangulate_position ps [(a, ⟨d, t₁⟩), (b, ⟨d, t₂⟩), (c, ⟨d, t₃⟩)] =
      ⟨(pa.x + pb.x + pc.x) / 3, (pa.y + pb.y + pc.y) / 3,
       snap_z ((pa.z + pb.z + pc.z) / 3)⟩ := by
  have hw := weight_pos d
  have hkey : ∀ u v w : ℚ,
      (u * weight d + v * weight d + w * weight d) / (weight d + weight d + weight d) =
        (u + v + w) / 3 := by
    intro u v w
    have hne : weight d ≠ 0 := ne_of_gt hw
    field_simp
    ring
  have hpos : (0 : ℚ) < weight d + weight d + weight d := by linarith
  simp only [triangulate_position, List.foldl_cons, List.foldl_nil, tri_step, posOf,
    ha, hb, hc, Option.getD_some, zero_add]
  rw [if_pos hpos]
  simp only [Vec3.mk.injEq]
  exact ⟨hkey pa.x pb.x pc.x, hkey pa.y pb.y pc.y, congrArg snap_z (hkey pa.z pb.z pc.z)⟩

/-- Witness for C9's amended statement on `anchors₀` with distance 1 and
distinct timestamps. -/
theorem triangulate_equidistant_witness :
    triangulate_position anchors₀
        [("espresense_a", ⟨1, 0⟩), ("espresense_b", ⟨1, 5⟩), ("espresense_c", ⟨1, 9⟩)] =
      ⟨((0 : ℚ) + 10 + 0) / 3, ((0 : ℚ) + 0 + 10) / 3, snap_z (((0 : ℚ) + 0 + 0) / 3)⟩ :=
  triangulate_equidistant anchors₀ "espresense_a" "espresense_b" "espresense_c"
    ⟨0, 0, 0⟩ ⟨10, 0, 0⟩ ⟨0, 10, 0⟩ 1 0 5 9 (by decide) (by decide) (by decide)

/-- C4: `determine_room` returns the name of the first room boundary, in
declaration order, whose inclusive bounds contain the position on all
three axes, and the sentinel `"Outside"` when no boundary contains it;
moreover, on the concrete room table the point `(1, home_length / 2, 1)`
lies exactly on the boundary shared by the first two listed rooms
("The Reading Space" and "Studio") and the first-listed room is returned. -/
theorem determine_room_first_match :
    (∀ (rooms : List (String × Bounds)) (p : Vec3),
       ((∀ r ∈ rooms, ¬ contains_pos r.2 p) ∧ determine_room rooms p = "Outside") ∨
       (∃ pre room_name bounds post,
          rooms = pre ++ (room_name, bounds) :: post ∧
          contains_pos bounds p ∧
          (∀ r ∈ pre, ¬ contains_pos r.2 p) ∧
          determine_room rooms p = room_name)) ∧
    (rooms_table.get? 0 =
       some ("The Reading Space",
         ⟨0, home_width / 2, 0, home_length / 2, 0, floor_height⟩) ∧
     rooms_table.get? 1 =
       some ("Studio",
         ⟨0, home_width / 2, home_length / 2, home_length, 0, floor_height⟩) ∧
     contains_pos ⟨0, home_width / 2, 0, home_length / 2, 0, floor_height⟩
       ⟨1, home_length / 2, 1⟩ ∧
     contains_pos ⟨0, home_width / 2, home_length / 2, home_length, 0, floor_height⟩
       ⟨1, home_length / 2, 1⟩ ∧
     determine_room rooms_table ⟨1, home_length / 2, 1⟩ = "The Reading Space") := by
  constructor
  · intro rooms p
    induction rooms with
    | nil =>
      left
      exact ⟨by simp, rfl⟩
    | cons hd rest ih =>
      obtain ⟨nm, b⟩ := hd
      by_cases h : contains_pos b p
      · right
        exact ⟨[], nm, b, rest, rfl, h, by simp, by simp [determine_room, if_pos h]⟩
      · rcases ih with ⟨hall, hout⟩ | ⟨pre, nm₁, b₁, post, heq, hcnt, hpre, hdet⟩
        · left
          refine ⟨?_, ?_⟩
          · intro r hr
            rcases List.mem_cons.mp hr with rfl | hr₁
            · exact h
            · exact hall r hr₁
          · simp [determine_room, if_neg h, hout]
        · right
          refine ⟨(nm, b) :: pre, nm₁, b₁, post, by rw [heq, List.cons_append], hcnt, ?_, ?_⟩
          · intro r hr
            rcases List.mem_cons.mp hr with rfl | hr₁
            · exact h
            · exact hpre r hr₁
          · simp [determine_room, if_neg h, hdet]
  · refine ⟨rfl, rfl, ?_, ?_, ?_⟩
    · norm_num [contains_pos, home_width, home_length, floor_height, FEET_TO_METERS]
    · norm_num [contains_pos, home_width, home_length, floor_height, FEET_TO_METERS]
    · norm_num [determine_room, rooms_table, contains_pos, home_width, home_length,
        floor_height, FEET_TO_METERS]

/-- Witness for C4: the first-match characterization instantiated at the
concrete room table and the shared-boundary point. -/
theorem determine_room_first_match_witness :
    ((∀ r ∈ rooms_table, ¬ contains_pos r.2 (⟨1, home_length / 2, 1⟩ : Vec3)) ∧
       determine_room rooms_table ⟨1, home_length / 2, 1⟩ = "Outside") ∨
    (∃ pre room_name bounds post,
       rooms_table = pre ++ (room_name, bounds) :: post ∧
       contains_pos bounds (⟨1, home_length / 2, 1⟩ : Vec3) ∧
       (∀ r ∈ pre, ¬ contains_pos r.2 (⟨1, home_length / 2, 1⟩ : Vec3)) ∧
       determine_room rooms_table ⟨1, home_length / 2, 1⟩ = room_name) :=
  determine_room_first_match.1 rooms_table ⟨1, home_length / 2, 1⟩

lemma alist_get_set_self {α : Type} (k : String) (v : α) :
    ∀ l : List (String × α), alist_get k (alist_set k v l) = some v := by
  intro l
  induction l with
  | nil => simp [alist_set, alist_get]
  | cons hd rest ih =>
    obtain ⟨k₀, v₀⟩ := hd
    by_cases h : k₀ = k
    · simp [alist_set, alist_get, h]
    · simp [alist_set, alist_get, h, ih]

lemma update_preserves_readings (cfg : Config) (device_id : String) (now : ℚ)
    (t : Tracker) :
    (update_device_location cfg device_id now t).1.device_readings =
      t.device_readings := by
  simp only [update_device_location]
  repeat' split
  all_goals rfl

/-- C1: with a stored location state and at least 3 stored readings of
which at least 3 are fresh, `update_device_location` leaves the tracker
state, the persisted file and the notification output unchanged when the
computed room equals the stored room; when it differs, the device's state
is replaced by exactly `{room, position, timestamp := now, friendly_name}`
with the position produced by the triangulation that caused the change,
the full state collection is persisted once, and exactly one change
notification `(display name, new room)` is emitted. -/
theorem update_device_location_gated (cfg : Config) (t : Tracker) (device_id : String)
    (now : ℚ) (cur : LocationState)
    (hcur : alist_get device_id t.device_locations = some cur)
    (hlen : ¬ ((alist_get device_id t.device_readings).getD []).length < 3)
    (hval : ¬ (valid_readings now
        ((alist_get device_id t.device_readings).getD [])).length < 3) :
    (determine_room cfg.rooms (triangulate_position cfg.esp32_positions
         (valid_readings now ((alist_get device_id t.device_readings).getD []))) =
       cur.room →
       update_device_location cfg device_id now t = (t, [])) ∧
    (∀ room position,
       position = triangulate_position cfg.esp32_positions
         (valid_readings now ((alist_get device_id t.device_readings).getD [])) →
       room = determine_room cfg.rooms position →
       room ≠ cur.room →
       update_device_location cfg device_id now t =
         (Tracker.mk t.device_readings
            (alist_set device_id
              (LocationState.mk room position now
                (some ((alist_get device_id cfg.device_names).getD "Unknown Device")))
              t.device_locations),
          [Effect.persist
             (alist_set device_id
               (LocationState.mk room position now
                 (some ((alist_get device_id cfg.device_names).getD "Unknown Device")))
               t.device_locations),
           Effect.notify ((alist_get device_id cfg.device_names).getD device_id) room])) := by
  constructor
  · intro heq
    simp only [update_device_location, hcur]
    rw [if_neg hlen, if_neg hval, if_neg (fun hne => hne heq)]
  · intro room position hpos hroom hne
    subst hpos
    subst hroom
    simp only [update_device_location, hcur]
    rw [if_neg hlen, if_neg hval, if_pos hne]

/-- A small concrete configuration: the anchors of `anchors₀`, one room
covering the origin corner, and one tracked device `"d"`. -/
def cfg₀ : Config :=
  { esp32_positions := anchors₀,
    rooms := [("RoomA", ⟨0, 10, 0, 10, 0, 10⟩)],
    device_names := [("d", "Dev")] }

/-- A tracker with three fresh readings for device `"d"` and the initial
`"Unknown"` location state. -/
def tracker₀ : Tracker :=
  { device_readings := [("d", readings₀)],
    device_locations := [("d", ⟨"Unknown", ⟨0, 0, 0⟩, 0, none⟩)] }

/-- Witness for C1: on `cfg₀` / `tracker₀` the computed room `"RoomA"`
differs from the stored `"Unknown"`, so the state is replaced, persisted
once, and one notification is emitted. -/
theorem update_device_location_gated_witness :
    update_device_location cfg₀ "d" 10 tracker₀ =
      (Tracker.mk tracker₀.device_readings
         (alist_set "d"
           (LocationState.mk "RoomA" (Vec3.mk (10 / 3) (10 / 3) (0.5 * floor_height)) 10
             (some "Dev"))
           tracker₀.device_locations),
       [Effect.persist
          (alist_set "d"
            (LocationState.mk "RoomA" (Vec3.mk (10 / 3) (10 / 3) (0.5 * floor_height)) 10
              (some "Dev"))
            tracker₀.device_locations),
        Effect.notify "Dev" "RoomA"]) := by
  have hg : (alist_get "d" tracker₀.device_readings).getD [] = readings₀ := by decide
  have hv : valid_readings 10 readings₀ = readings₀ := by
    norm_num [valid_readings, readings₀]
  have ha : posOf anchors₀ "espresense_a" = ⟨0, 0, 0⟩ := by decide
  have hb : posOf anchors₀ "espresense_b" = ⟨10, 0, 0⟩ := by decide
  have hc : posOf anchors₀ "espresense_c" = ⟨0, 10, 0⟩ := by decide
  have htri : triangulate_position cfg₀.esp32_positions
      (valid_readings 10 ((alist_get "d" tracker₀.device_readings).getD [])) =
      Vec3.mk (10 / 3) (10 / 3) (0.5 * floor_height) := by
    rw [hg, hv]
    show triangulate_position anchors₀ readings₀ = _
    simp only [triangulate_position, readings₀, List.foldl_cons, List.foldl_nil, tri_step,
      ha, hb, hc]
    norm_num [weight, snap_z, floor_height, FEET_TO_METERS]
  have hroom : determine_room cfg₀.rooms (Vec3.mk (10 / 3) (10 / 3) (0.5 * floor_height)) =
      "RoomA" := by
    norm_num [cfg₀, determine_room, contains_pos, floor_height, FEET_TO_METERS]
  have h := (update_device_location_gated cfg₀ tracker₀ "d" 10
      (LocationState.mk "Unknown" (Vec3.mk 0 0 0) 0 none) (by decide)
      (by rw [hg]; decide) (by rw [hg, hv]; decide)).2
      "RoomA" (Vec3.mk (10 / 3) (10 / 3) (0.5 * floor_height)) htri.symm hroom.symm
      (by decide)
  exact h

/-- C6: when, after ingesting a reading for a known device and anchor, the
device has fewer than 3 fresh (within-TTL) readings, `on_message` stores
the reading but performs no transition: the location-state collection is
retained unchanged, nothing is persisted and no notification is emitted —
regardless of how many additional stale readings are stored. -/
theorem on_message_insufficient_readings (cfg : Config) (now : ℚ) (topic : String)
    (p : Payload) (t : Tracker) (device_id esp32_short : String)
    (inner : List (String × Reading))
    (h2 : (split_slash topic).get? 2 = some device_id)
    (h3 : (split_slash topic).get? 3 = some esp32_short)
    (hdev : (alist_get device_id cfg.device_names).isNone = false)
    (hesp : (alist_get ("espresense_" ++ esp32_short) cfg.esp32_positions).isSome = true)
    (hinner : alist_get device_id t.device_readings = some inner)
    (hfresh : (valid_readings now
        (alist_set ("espresense_" ++ esp32_short)
          (Reading.mk (p.distance.getD 0) now) inner)).length < 3) :
    on_message cfg now topic (some p) t =
      (Tracker.mk
         (alist_set device_id
           (alist_set ("espresense_" ++ esp32_short)
             (Reading.mk (p.distance.getD 0) now) inner)
           t.device_readings)
         t.device_locations, []) := by
  simp only [on_message, h2, h3, hdev, hesp, hinner, Bool.false_eq_true, if_false, if_true]
  have hget : alist_get device_id
      (alist_set device_id
        (alist_set ("espresense_" ++ esp32_short)
          (Reading.mk (p.distance.getD 0) now) inner)
        t.device_readings) =
      some (alist_set ("espresense_" ++ esp32_short)
        (Reading.mk (p.distance.getD 0) now) inner) :=
    alist_get_set_self _ _ _
  simp only [update_device_location, hget, Option.getD_some]
  by_cases hraw : (alist_set ("espresense_" ++ esp32_short)
      (Reading.mk (p.distance.getD 0) now) inner).length < 3
  · rw [if_pos hraw]
  · rw [if_neg hraw, if_pos hfresh]

/-- A tracker holding one stale reading for device `"d"` (60+ seconds old
at the time the witness runs) and the initial `"Unknown"` state. -/
def tracker₁ : Tracker :=
  { device_readings := [("d", [("espresense_a", ⟨1, 0⟩)])],
    device_locations := [("d", ⟨"Unknown", ⟨0, 0, 0⟩, 0, none⟩)] }

/-- Witness for C6: ingesting a fresh reading at time 100 next to one
stale reading leaves only 1 fresh reading, so the location state stays
`"Unknown"` and no effect is emitted. -/
theorem on_message_insufficient_readings_witness :
    on_message cfg₀ 100 "espresense/devices/d/b" (some ⟨some 1⟩) tracker₁ =
      (Tracker.mk
         (alist_set "d"
           (alist_set "espresense_b" (Reading.mk 1 100) [("espresense_a", ⟨1, 0⟩)])
           tracker₁.device_readings)
         tracker₁.device_locations, []) := by
  have hset : alist_set "espresense_b" (Reading.mk 1 100)
      [("espresense_a", (⟨1, 0⟩ : Reading))] =
      [("espresense_a", (⟨1, 0⟩ : Reading)), ("espresense_b", (⟨1, 100⟩ : Reading))] := by
    decide
  have hfresh : (valid_readings 100
      (alist_set "espresense_b" (Reading.mk ((Payload.mk (some 1)).distance.getD 0) 100)
        [("espresense_a", (⟨1, 0⟩ : Reading))])).length < 3 := by
    rw [show Reading.mk ((Payload.mk (some 1)).distance.getD 0) 100 = Reading.mk 1 100
      from rfl]
    rw [hset]
    norm_num [valid_readings, List.filter]
  exact on_message_insufficient_readings cfg₀ 100 "espresense/devices/d/b" ⟨some 1⟩
    tracker₁ "d" "b" [("espresense_a", ⟨1, 0⟩)] (by decide) (by decide) (by decide)
    (by decide) (by decide) hfresh

/-- C7: malformed or unrecognized input is dropped silently at the
ingestion boundary with no reading stored and no state change: an
unparsable payload, a topic with too few segments (whose indexing raises
and is caught), an unknown device id, and an unknown anchor id all leave
the tracker unchanged and emit no effect, and `on_message` is total (no
fatal error). -/
theorem on_message_drops_malformed (cfg : Config) (now : ℚ) (t : Tracker) :
    (∀ topic, on_message cfg now topic none t = (t, [])) ∧
    (∀ topic p,
       ((split_slash topic).get? 2 = none ∨ (split_slash topic).get? 3 = none) →
       on_message cfg now topic (some p) t = (t, [])) ∧
    (∀ topic p device_id esp32_short,
       (split_slash topic).get? 2 = some device_id →
       (split_slash topic).get? 3 = some esp32_short →
       alist_get device_id cfg.device_names = none →
       on_message cfg now topic (some p) t = (t, [])) ∧
    (∀ topic p device_id esp32_short,
       (split_slash topic).get? 2 = some device_id →
       (split_slash topic).get? 3 = some esp32_short →
       alist_get ("espresense_" ++ esp32_short) cfg.esp32_positions = none →
       on_message cfg now topic (some p) t = (t, [])) := by
  refine ⟨?_, ?_, ?_, ?_⟩
  · intro topic
    rfl
  · intro topic p h
    rcases h with h | h
    · simp only [on_message, h]
    · cases hx : (split_slash topic).get? 2 with
      | none => simp only [on_message, hx]
      | some d => simp only [on_message, hx, h]
  · intro topic p device_id esp32_short h2 h3 hdev
    simp only [on_message, h2, h3, hdev, Option.isNone_none, if_true]
  · intro topic p device_id esp32_short h2 h3 hesp
    by_cases hdev : (alist_get device_id cfg.device_names).isNone = true
    · simp only [on_message, h2, h3, hdev, if_true]
    · simp only [on_message, h2, h3, hesp, Option.isSome_none, Bool.false_eq_true,
        if_false, Bool.not_eq_true] at hdev ⊢
      simp [hdev]

/-- Witness for C7: the four drop cases at concrete inputs — unparsable
payload, a 2-segment topic, an untracked device id `"zzz"`, and an unknown
anchor name `"zzz"`. -/
theorem on_message_drops_malformed_witness :
    on_message cfg₀ 0 "espresense/devices/d/a" none tracker₀ = (tracker₀, []) ∧
    on_message cfg₀ 0 "a/b" (some ⟨some 1⟩) tracker₀ = (tracker₀, []) ∧
    on_message cfg₀ 0 "espresense/devices/zzz/a" (some ⟨some 1⟩) tracker₀ =
      (tracker₀, []) ∧
    on_message cfg₀ 0 "espresense/devices/d/zzz" (some ⟨some 1⟩) tracker₀ =
      (tracker₀, []) :=
  ⟨(on_message_drops_malformed cfg₀ 0 tracker₀).1 "espresense/devices/d/a",
   (on_message_drops_malformed cfg₀ 0 tracker₀).2.1 "a/b" ⟨some 1⟩ (Or.inl (by decide)),
   (on_message_drops_malformed cfg₀ 0 tracker₀).2.2.1 "espresense/devices/zzz/a"
     ⟨some 1⟩ "zzz" "a" (by decide) (by decide) (by decide),
   (on_message_drops_malformed cfg₀ 0 tracker₀).2.2.2 "espresense/devices/d/zzz"
     ⟨some 1⟩ "d" "zzz" (by decide) (by decide) (by decide)⟩

/-- C10: a well-formed payload from a known device and anchor whose
`"distance"` field is missing is accepted with the distance defaulted to
0 and stored as the device's latest reading for that anchor; and every
distance at most 0.1 — including 0 and negative values, which are never
rejected — receives the fixed clamp weight 100. -/
theorem on_message_default_distance (cfg : Config) (now : ℚ) (topic : String)
    (t : Tracker) (device_id esp32_short : String) (inner : List (String × Reading))
    (h2 : (split_slash topic).get? 2 = some device_id)
    (h3 : (split_slash topic).get? 3 = some esp32_short)
    (hdev : (alist_get device_id cfg.device_names).isNone = false)
    (hesp : (alist_get ("espresense_" ++ esp32_short) cfg.esp32_positions).isSome = true)
    (hinner : alist_get device_id t.device_readings = some inner) :
    (on_message cfg now topic (some (Payload.mk none)) t).1.device_readings =
      alist_set device_id
        (alist_set ("espresense_" ++ esp32_short) (Reading.mk 0 now) inner)
        t.device_readings ∧
    (∀ d : ℚ, d ≤ 0.1 → weight d = 100) := by
  constructor
  · simp only [on_message, h2, h3, hdev, hesp, hinner, Bool.false_eq_true, if_false,
      if_true]
    rw [update_preserves_readings]
    rfl
  · intro d hd
    simp [weight, not_lt.mpr hd]

/-- Witness for C10: a payload with no `"distance"` field is stored with
distance 0, and the clamp weight applies to distance 0 and to a negative
distance. -/
theorem on_message_default_distance_witness :
    (on_message cfg₀ 5 "espresense/devices/d/a" (some ⟨none⟩) tracker₁).1.device_readings =
      alist_set "d" (alist_set "espresense_a" (Reading.mk 0 5) [("espresense_a", ⟨1, 0⟩)])
        tracker₁.device_readings ∧
    weight 0 = 100 ∧ weight (-3) = 100 := by
  have h := on_message_default_distance cfg₀ 5 "espresense/devices/d/a" tracker₁ "d" "a"
    [("espresense_a", ⟨1, 0⟩)] (by decide) (by decide) (by decide) (by decide) (by decide)
  exact ⟨h.1, h.2 0 (by norm_num), h.2 (-3) (by norm_num)⟩
